import Mathlib

/-!
Verification of the BrainCell adaptive-tutoring backend core.

Shallow embedding of the decision-engine code:
* `app/orchestrator.py` — multimodal signal fusion;
* `app/cognitive_modules/knowledge_gaps.py` — mastery tracking and gap
  recommendations;
* `app/api/routes/session.py` — LLM payload validation, fallback response,
  history parsing;
* `app/utils/prompt_crafter.py` — modality selection and prompt building;
* `app/api/routes/classroom.py` — classroom analytics ("students needing
  help").

Python floats are embedded as rationals (`ℚ`); machine ints as `ℕ`/`ℤ`.
Database rows become explicit structures, the keyed store becomes an
`Option`-valued lookup, and the stdlib `json` module is treated as an external
collaborator: values cross that boundary as an explicit `Json` inductive.
-/

namespace BrainCell

/-! ### Enumerations (`app/api/schemas.py`) -/

/-- `CognitiveState(str, Enum)` — FOCUSED / CONFUSED / FRUSTRATED. -/
inductive CognitiveState
  | FOCUSED
  | CONFUSED
  | FRUSTRATED
deriving DecidableEq, Repr

/-- Wire value of a `CognitiveState` member. -/
def CognitiveState.value : CognitiveState → String
  | .FOCUSED => "FOCUSED"
  | .CONFUSED => "CONFUSED"
  | .FRUSTRATED => "FRUSTRATED"

/-- `ResponseType(str, Enum)` — text / diagram / code. -/
inductive ResponseType
  | TEXT
  | DIAGRAM
  | CODE
deriving DecidableEq, Repr

/-- Wire value of a `ResponseType` member. -/
def ResponseType.value : ResponseType → String
  | .TEXT => "text"
  | .DIAGRAM => "diagram"
  | .CODE => "code"

/-- `FacialExpression(str, Enum)`. -/
inductive FacialExpression
  | FEAR
  | SAD
  | ANGRY
  | SURPRISE
  | NEUTRAL
  | HAPPY
deriving DecidableEq, Repr

/-- Wire value of a `FacialExpression` member. -/
def FacialExpression.value : FacialExpression → String
  | .FEAR => "fear"
  | .SAD => "sad"
  | .ANGRY => "angry"
  | .SURPRISE => "surprise"
  | .NEUTRAL => "neutral"
  | .HAPPY => "happy"

/-- `VocalState(str, Enum)`. -/
inductive VocalState
  | CALM
  | HESITANT
  | STRESSED
  | FRUSTRATED
deriving DecidableEq, Repr

/-- Wire value of a `VocalState` member. -/
def VocalState.value : VocalState → String
  | .CALM => "calm"
  | .HESITANT => "hesitant"
  | .STRESSED => "stressed"
  | .FRUSTRATED => "frustrated"

/-- `TextFriction` pydantic model: both counters carry a `ge=0` constraint,
so they are embedded as naturals. -/
structure TextFriction where
  rephrase_count : ℕ
  backspace_count : ℕ
deriving DecidableEq, Repr

/-! ### Signal fusion (`app/orchestrator.py`, `fuse_cognitive_signals`) -/

/-- Literal translation of `fuse_cognitive_signals`: the sequential score
accumulation of the Python function.  The `getattr(VocalState, 'STRESSED',
None)` guard in the source is truthy (the member exists), so the STRESSED
branch is live. -/
def fuse_cognitive_signals (text_friction : TextFriction)
    (vocal_state : Option VocalState) (facial_expression : Option FacialExpression) :
    CognitiveState :=
  -- Immediate overrides
  if vocal_state = some VocalState.FRUSTRATED then CognitiveState.FRUSTRATED
  else
    let score : ℕ := 0
    -- Textual friction
    let score := if text_friction.rephrase_count > 1 then score + 3 else score
    let score := if text_friction.backspace_count > 10 then score + 2 else score
    let score := if text_friction.backspace_count > 20 then score + 3 else score
    -- Vocal cues
    let score := if vocal_state = some VocalState.HESITANT then score + 3 else score
    let score := if vocal_state = some VocalState.STRESSED then score + 4 else score
    -- Facial expressions (set membership, with an elif for SURPRISE)
    let score :=
      if facial_expression = some FacialExpression.FEAR ∨
         facial_expression = some FacialExpression.SAD ∨
         facial_expression = some FacialExpression.ANGRY then score + 3
      else if facial_expression = some FacialExpression.SURPRISE then score + 1
      else score
    -- Strong confusion threshold
    if score ≥ 8 then CognitiveState.FRUSTRATED
    else if score ≥ 4 then CognitiveState.CONFUSED
    else CognitiveState.FOCUSED

/-- The canonical scoring rubric as the specification words it: a plain sum of
independent contributions. -/
def rubricScore (text_friction : TextFriction)
    (vocal_state : Option VocalState) (facial_expression : Option FacialExpression) : ℕ :=
  (if text_friction.rephrase_count > 1 then 3 else 0) +
  (if text_friction.backspace_count > 10 then 2 else 0) +
  (if text_friction.backspace_count > 20 then 3 else 0) +
  (if vocal_state = some VocalState.HESITANT then 3 else 0) +
  (if vocal_state = some VocalState.STRESSED then 4 else 0) +
  (if facial_expression = some FacialExpression.FEAR ∨
      facial_expression = some FacialExpression.SAD ∨
      facial_expression = some FacialExpression.ANGRY then 3 else 0) +
  (if facial_expression = some FacialExpression.SURPRISE then 1 else 0)

/-- The canonical rubric as the specification words it: FRUSTRATED override,
then thresholds 8 and 4 on the summed score. -/
def rubricFuse (text_friction : TextFriction)
    (vocal_state : Option VocalState) (facial_expression : Option FacialExpression) :
    CognitiveState :=
  if vocal_state = some VocalState.FRUSTRATED then CognitiveState.FRUSTRATED
  else if rubricScore text_friction vocal_state facial_expression ≥ 8 then
    CognitiveState.FRUSTRATED
  else if rubricScore text_friction vocal_state facial_expression ≥ 4 then
    CognitiveState.CONFUSED
  else CognitiveState.FOCUSED

/-! ### Mastery tracking (`knowledge_gaps.py`, `track_concept_interaction`)

A `ConceptMastery` row, restricted to the fields the update touches.  The
`first_encountered` / `last_assessed` timestamps come from the ambient clock
(`datetime.now`) and carry no information the claims mention, so they are left
out of the embedding. -/
structure ConceptMastery where
  mastery_level : ℚ
  attempts : ℕ
  confused_count : ℕ
  frustrated_count : ℕ
deriving DecidableEq, Repr

/-- One `track_concept_interaction` event on the (student, concept) key:
`none` is the absent state (the `existing is None` branch creates the row),
`some m` the present state (the update branch). -/
def track_concept_interaction (existing : Option ConceptMastery)
    (cognitive_state : CognitiveState) : ConceptMastery :=
  match existing with
  | some m =>
    match cognitive_state with
    | .FOCUSED =>
      { m with attempts := m.attempts + 1,
               mastery_level := min 1 (m.mastery_level + 1/10) }
    | .CONFUSED =>
      { m with attempts := m.attempts + 1,
               mastery_level := max 0 (m.mastery_level - 1/20),
               confused_count := m.confused_count + 1 }
    | .FRUSTRATED =>
      { m with attempts := m.attempts + 1,
               mastery_level := max 0 (m.mastery_level - 1/10),
               frustrated_count := m.frustrated_count + 1 }
  | none =>
    { mastery_level :=
        match cognitive_state with
        | .FOCUSED => 1/2
        | .CONFUSED => 1/5
        | .FRUSTRATED => 1/10
      attempts := 1
      confused_count := if cognitive_state = .CONFUSED then 1 else 0
      frustrated_count := if cognitive_state = .FRUSTRATED then 1 else 0 }

/-- The sequence of record states produced by a sequence of interaction events
on one (student, concept) key, starting from a given store state. -/
def runEvents (st : Option ConceptMastery) : List CognitiveState → List ConceptMastery
  | [] => []
  | e :: es =>
    let st1 := track_concept_interaction st e
    st1 :: runEvents (some st1) es

/-! ### Gap recommendations (`knowledge_gaps.py`, `_generate_recommendations`)

`detect_gaps` passes lists of `concept_data` dicts; the recommendation
generator reads only the `"name"` entry of each.  The dict is embedded as a
structure with the fields `detect_gaps` populates. -/
structure GapConcept where
  id : String
  name : String
  mastery : ℚ
  attempts : ℕ
  confused_count : ℕ
  frustrated_count : ℕ
deriving DecidableEq, Repr

/-- Literal translation of `_generate_recommendations`.  Python truthiness:
`if weak:` means "weak is nonempty", `if not recs:` means "recs is empty". -/
def _generate_recommendations (weak struggling strong : List GapConcept)
    (avg_mastery : ℚ) : List String :=
  let recs : List String := []
  let recs := recs ++
    [if avg_mastery < 3/10 then
      "âš ï¸ You\x27re in early stages. Focus on building fundamentals before moving forward."
    else if avg_mastery < 1/2 then
      "ðŸ“š You\x27re making progress! Review weak areas before tackling new concepts."
    else if avg_mastery < 7/10 then
      "ðŸŽ¯ Good momentum! A few more practice sessions will solidify your knowledge."
    else
      "ðŸ† Excellent progress! You\x27re ready for advanced topics."]
  -- Specific weak area recommendations
  let recs := if weak ≠ [] then
      recs ++ ["ðŸ”´ Priority review needed: " ++
        String.intercalate ", " ((weak.take 3).map GapConcept.name)]
    else recs
  -- Struggling pattern detection
  let recs := if struggling ≠ [] then
      recs ++ ["âš ï¸ You\x27ve been confused about: " ++
        String.intercalate ", " ((struggling.take 2).map GapConcept.name) ++
        ". Try a different approach or ask for examples."]
    else recs
  -- Positive reinforcement
  let recs := if strong ≠ [] then
      recs ++ ["âœ… You\x27ve mastered: " ++
        String.intercalate ", " ((strong.take 2).map GapConcept.name) ++
        "! Build on these strengths."]
    else recs
  -- Default recommendation
  let recs := if recs = [] then recs ++ ["Keep learning! Consistency is key."] else recs
  recs

/-! ### Tutoring context (`app/utils/typing.py`, `CognitiveContext`) -/

structure CognitiveContext where
  session_id : String
  topic : String
  query_text : String
  cognitive_state : CognitiveState
  conversation_history : List (String × String)
  learning_objectives : List String
  knowledge_graph_nodes : List String
  last_response_type : Option ResponseType
  text_friction_summary : String
  vocal_state : Option VocalState
  facial_expression : Option FacialExpression
deriving Repr

/-! ### Modality selection and prompt building (`app/utils/prompt_crafter.py`) -/

/-- The `MODALITY_DIRECTIVES` dict.  The enum is closed, so the lookup always
hits; the `.get` default `(TEXT, "Provide a clear textual explanation and
highlight key takeaways.")` in the source is dead. -/
def MODALITY_DIRECTIVES : CognitiveState → ResponseType × String
  | .FOCUSED =>
    (ResponseType.TEXT,
      "Deliver a concise textual explanation that builds intuition, then reinforce with a short checklist of key points.")
  | .CONFUSED =>
    (ResponseType.DIAGRAM,
      "Use a Mermaid diagram to visualise relationships. Start with a one-sentence anchor explanation, then provide the diagram.")
  | .FRUSTRATED =>
    (ResponseType.CODE,
      "Present a small, runnable code sample (JavaScript or Python) with inline comments. Follow with a quick experiment suggestion.")

/-- `_preferred_modality`: table lookup plus the anti-repetition override. -/
def _preferred_modality (context : CognitiveContext) : ResponseType × String :=
  let base := MODALITY_DIRECTIVES context.cognitive_state
  if context.last_response_type = some base.1 ∧
     context.cognitive_state = CognitiveState.FOCUSED then
    -- Encourage variety in sustained focus to avoid repetition.
    (ResponseType.DIAGRAM,
      "Learner remains focused after a textual response. Offer a quick visual (Mermaid diagram) to deepen understanding.")
  else base

/-- Python `str.strip()` (on the whitespace these strings contain —
space/tab/CR/LF). -/
def pyStrip (s : String) : String :=
  String.mk (((s.toList.dropWhile Char.isWhitespace).reverse.dropWhile
    Char.isWhitespace).reverse)

/-- Accumulator pass behind Python `str.split()`: maximal non-whitespace
runs, whitespace runs discarded. -/
def wsWordsGo : List Char → List Char → List (List Char)
  | [], cur => if cur = [] then [] else [cur.reverse]
  | c :: cs, cur =>
    if Char.isWhitespace c then
      if cur = [] then wsWordsGo cs []
      else cur.reverse :: wsWordsGo cs []
    else wsWordsGo cs (c :: cur)

/-- Python `str.split()` with no argument. -/
def pySplitWs (s : String) : List String :=
  (wsWordsGo s.toList []).map String.mk

/-- Python `" ".join(message.split())`: collapse whitespace runs. -/
def normalizeWs (s : String) : String :=
  String.intercalate " " (pySplitWs s)

/-- Python `l[-n:]`. -/
def pyTakeLast {α : Type} (n : ℕ) (l : List α) : List α :=
  l.drop (l.length - n)

/-- `_render_history`: last 6 entries, most recent first, numbered from 1,
contents whitespace-collapsed. -/
def _render_history (history : List (String × String)) : String :=
  if history = [] then "- (no previous exchanges)"
  else
    let limited := (pyTakeLast 6 history).reverse
    let lines := (List.enumFrom 1 limited).map fun p =>
      "- " ++ toString p.1 ++ ". " ++ p.2.1 ++ ": " ++ normalizeWs p.2.2
    String.intercalate "\n" lines

/-- `_render_bullets`. -/
def _render_bullets (items : List String) (fallback : String) : String :=
  if items = [] then "- " ++ fallback
  else String.intercalate "\n" (items.map (fun item => "- " ++ item))

/-- Longest common prefix of two character lists (the loop at the heart of
`textwrap.dedent` margin computation). -/
def lcpChars : List Char → List Char → List Char
  | x :: xs, y :: ys => if x = y then x :: lcpChars xs ys else []
  | _, _ => []

/-- A tab-or-space character (the `[ \t]` class used by `textwrap.dedent`). -/
def isIndentChar (c : Char) : Bool := c = ' ' ∨ c = '\t'

/-- `textwrap.dedent`, as CPython implements it: lines consisting solely of
`[ \t]+` are emptied, the margin is the longest common `[ \t]*` prefix of the
remaining lines that contain a non-whitespace character, and that margin is
stripped from the start of every line that carries it. -/
def dedent (text : String) : String :=
  let lines := (text.splitOn "\n").map
    (fun l => if l ≠ "" ∧ l.toList.all isIndentChar then "" else l)
  let indents := lines.filterMap
    (fun l => if l.toList.any (fun c => ¬ isIndentChar c) then
        some (String.mk (l.toList.takeWhile isIndentChar))
      else none)
  let margin := match indents with
    | [] => ""
    | i :: is => is.foldl (fun m ind => String.mk (lcpChars m.toList ind.toList)) i
  let stripped := lines.map
    (fun l => if margin ≠ "" && l.startsWith margin then l.drop margin.length else l)
  String.intercalate "\n" stripped

/-- `build_prompt`: the full deterministic prompt template, transcribed with
the exact whitespace of the source f-strings (8-space template indentation,
empty separator lines). `{x!r}` on a plain string renders it in single
quotes. -/
def build_prompt (context : CognitiveContext) : String × ResponseType :=
  let pm := _preferred_modality context
  let response_type := pm.1
  let modality_guidance := pm.2
  let history_section := _render_history context.conversation_history
  let objectives_section :=
    _render_bullets context.learning_objectives "No explicit objectives logged yet."
  let knowledge_section :=
    _render_bullets context.knowledge_graph_nodes "Graph is empty. Introduce foundational concepts."
  let text_friction :=
    if context.text_friction_summary ≠ "" then context.text_friction_summary else "Not reported"
  let vocal := match context.vocal_state with
    | some v => v.value
    | none => "Not detected"
  let facial := match context.facial_expression with
    | some f => f.value
    | none => "Not detected"
  let last_modality := match context.last_response_type with
    | some rt => rt.value
    | none => "None yet"
  let prompt := dedent (pyStrip
    ("\n        You are BrainCell, an adaptive learning copilot. Tailor the modality and depth of your response to help the learner break through their current obstacle.\n\n        ## Session Metadata\n        - Session ID: "
      ++ context.session_id
      ++ "\n        - Topic: " ++ context.topic
      ++ "\n        - Cognitive State: " ++ context.cognitive_state.value
      ++ "\n        - Recommended Modality: " ++ response_type.value
      ++ "\n        - Previous Modality: " ++ last_modality
      ++ "\n\n        ## Learner Signals\n        - Text Friction Summary: " ++ text_friction
      ++ "\n        - Vocal State: " ++ vocal
      ++ "\n        - Facial Expression: " ++ facial
      ++ "\n\n        ## Learner Question\n        "))
  let prompt := prompt ++ "\n" ++ pyStrip context.query_text ++ "\n"
  let prompt := prompt ++ dedent
    ("\n\n        ## Conversation History (most recent first)\n        "
      ++ history_section
      ++ "\n\n        ## Learning Objectives\n        " ++ objectives_section
      ++ "\n\n        ## Knowledge Graph Snapshot\n        " ++ knowledge_section
      ++ "\n\n        ## Modality Guidance\n        " ++ modality_guidance
      ++ "\n\n        ## Output Contract\n        - Respond with a **single JSON object** (no Markdown fences) containing keys: `responseType`, `content`, `cognitiveState`, `knowledgeGraphDelta`.\n        - `responseType` should normally be \x27"
      ++ response_type.value
      ++ "\x27. Switch only if the situation demands it and explain briefly inside `content`.\n        - `content` must align with the chosen modality (plain text, Mermaid diagram, or executable code) and include actionable next steps.\n        - `knowledgeGraphDelta.nodes` should introduce up to 2 new concepts with `id`, `type`, `label`, and `mastered` (boolean).\n        - `knowledgeGraphDelta.edges` should link new concepts to prior ones when relevant.\n        - Keep JSON valid and concise. Escape newlines as `\n` where necessary.\n\n        Example schema (values are illustrative only):\n        \x7b\n            \"responseType\": \""
      ++ response_type.value
      ++ "\",\n            \"content\": \"...\",\n            \"cognitiveState\": \""
      ++ context.cognitive_state.value
      ++ "\",\n            \"knowledgeGraphDelta\": \x7b\n                \"nodes\": [\n                    \x7b\"id\": \"node_rnn_backprop\", \"type\": \"concept\", \"label\": \"Backprop Through Time\", \"mastered\": false\x7d\n                ],\n                \"edges\": [\n                    \x7b\"id\": \"edge_rnn1\", \"source\": \"node_root\", \"target\": \"node_rnn_backprop\", \"label\": \"builds_on\"\x7d\n                ]\n            \x7d\n        \x7d\n\n        If information is missing, make a best-effort inference and note assumptions within the `content` field.\n        ")
  (pyStrip prompt, response_type)

/-! ### JSON boundary

The stdlib `json` module is an external collaborator: `json.loads` either
raises `JSONDecodeError` or hands the program a decoded value.  Decoded
values are embedded as this inductive; objects are association lists (keys
unique after decoding, so first-match lookup is dict lookup). -/
inductive Json
  | null
  | bool (b : Bool)
  | num (n : ℤ)
  | str (s : String)
  | arr (elems : List Json)
  | obj (fields : List (String × Json))

/-! ### Response schema (`app/api/schemas.py`) and its pydantic validation

`KnowledgeGraphNode.type` is declared `Literal["concept", "mastered",
"note"]`; it is embedded as a `String` so that the validator's membership
check is a real check. -/
structure KnowledgeGraphNode where
  id : String
  type : String
  label : String
  mastered : Bool
deriving DecidableEq, Repr

structure KnowledgeGraphEdge where
  id : String
  source : String
  target : String
  label : Option String
deriving DecidableEq, Repr

structure KnowledgeGraphDelta where
  nodes : List KnowledgeGraphNode
  edges : List KnowledgeGraphEdge
deriving DecidableEq, Repr

/-- `AIResponse`; `metrics: dict | None = None` is an opaque map. -/
structure AIResponse where
  response_type : ResponseType
  content : String
  cognitive_state : CognitiveState
  knowledge_graph_delta : KnowledgeGraphDelta
  metrics : Option (List (String × Json)) := none

/-- The `Literal` constraint on node `type`. -/
def validNodeType (t : String) : Bool :=
  t == "concept" || t == "mastered" || t == "note"

/-- Schema validity of an `AIResponse` value: every constraint of the pydantic
model that is not already enforced by the embedding types, i.e. the `Literal`
constraint on each node type. -/
def validAIResponse (r : AIResponse) : Bool :=
  r.knowledge_graph_delta.nodes.all (fun n => validNodeType n.type)

/-- pydantic field validation for `responseType` (enum `ResponseType`). -/
def responseTypeFromJson : Json → Except String ResponseType
  | .str "text" => .ok ResponseType.TEXT
  | .str "diagram" => .ok ResponseType.DIAGRAM
  | .str "code" => .ok ResponseType.CODE
  | _ => .error "value is not a valid enumeration member"

/-- pydantic field validation for `cognitiveState` (enum `CognitiveState`). -/
def cognitiveStateFromJson : Json → Except String CognitiveState
  | .str "FOCUSED" => .ok CognitiveState.FOCUSED
  | .str "CONFUSED" => .ok CognitiveState.CONFUSED
  | .str "FRUSTRATED" => .ok CognitiveState.FRUSTRATED
  | _ => .error "value is not a valid enumeration member"

/-- pydantic validation of one `KnowledgeGraphNode` object. -/
def nodeFromJson : Json → Except String KnowledgeGraphNode
  | .obj kvs =>
    match kvs.lookup "id", kvs.lookup "type", kvs.lookup "label", kvs.lookup "mastered" with
    | some (.str i), some (.str t), some (.str lb), some (.bool m) =>
      if validNodeType t then .ok ⟨i, t, lb, m⟩
      else .error "unexpected value; permitted: concept, mastered, note"
    | _, _, _, _ => .error "invalid KnowledgeGraphNode"
  | _ => .error "invalid KnowledgeGraphNode"

/-- pydantic validation of one `KnowledgeGraphEdge` object (`label` optional,
default `None`). -/
def edgeFromJson : Json → Except String KnowledgeGraphEdge
  | .obj kvs =>
    let lbl : Except String (Option String) :=
      match kvs.lookup "label" with
      | none => .ok none
      | some .null => .ok none
      | some (.str s) => .ok (some s)
      | some _ => .error "str type expected"
    match kvs.lookup "id", kvs.lookup "source", kvs.lookup "target", lbl with
    | some (.str i), some (.str s), some (.str t), .ok l => .ok ⟨i, s, t, l⟩
    | _, _, _, _ => .error "invalid KnowledgeGraphEdge"
  | _ => .error "invalid KnowledgeGraphEdge"

def nodesFromJson : List Json → Except String (List KnowledgeGraphNode)
  | [] => .ok []
  | j :: js =>
    match nodeFromJson j, nodesFromJson js with
    | .ok n, .ok ns => .ok (n :: ns)
    | .error e, _ => .error e
    | _, .error e => .error e

def edgesFromJson : List Json → Except String (List KnowledgeGraphEdge)
  | [] => .ok []
  | j :: js =>
    match edgeFromJson j, edgesFromJson js with
    | .ok n, .ok ns => .ok (n :: ns)
    | .error e, _ => .error e
    | _, .error e => .error e

/-- pydantic validation of `KnowledgeGraphDelta` (both lists carry
`default_factory=list`, so a missing key means an empty list). -/
def deltaFromJson : Json → Except String KnowledgeGraphDelta
  | .obj kvs =>
    let ns : Except String (List KnowledgeGraphNode) :=
      match kvs.lookup "nodes" with
      | none => .ok []
      | some (.arr xs) => nodesFromJson xs
      | some _ => .error "value is not a valid list"
    let es : Except String (List KnowledgeGraphEdge) :=
      match kvs.lookup "edges" with
      | none => .ok []
      | some (.arr xs) => edgesFromJson xs
      | some _ => .error "value is not a valid list"
    match ns, es with
    | .ok a, .ok b => .ok ⟨a, b⟩
    | .error e, _ => .error e
    | _, .error e => .error e
  | _ => .error "invalid KnowledgeGraphDelta"

/-- `AIResponse(**candidate)`: pydantic validation of the whole payload.  The
first four fields are required (`...`); `metrics` defaults to `None`.  Extra
keys are ignored (pydantic v1 default). -/
def aiResponseFromJson : Json → Except String AIResponse
  | .obj kvs =>
    let rt : Except String ResponseType :=
      match kvs.lookup "responseType" with
      | some v => responseTypeFromJson v
      | none => .error "field required: responseType"
    let ct : Except String String :=
      match kvs.lookup "content" with
      | some (.str s) => .ok s
      | some _ => .error "str type expected"
      | none => .error "field required: content"
    let cs : Except String CognitiveState :=
      match kvs.lookup "cognitiveState" with
      | some v => cognitiveStateFromJson v
      | none => .error "field required: cognitiveState"
    let kg : Except String KnowledgeGraphDelta :=
      match kvs.lookup "knowledgeGraphDelta" with
      | some v => deltaFromJson v
      | none => .error "field required: knowledgeGraphDelta"
    let mt : Except String (Option (List (String × Json))) :=
      match kvs.lookup "metrics" with
      | none => .ok none
      | some .null => .ok none
      | some (.obj m) => .ok (some m)
      | some _ => .error "value is not a valid dict"
    match rt, ct, cs, kg, mt with
    | .ok a, .ok b, .ok c, .ok d, .ok e => .ok ⟨a, b, c, d, e⟩
    | .error e, _, _, _, _ => .error e
    | _, .error e, _, _, _ => .error e
    | _, _, .error e, _, _ => .error e
    | _, _, _, .error e, _ => .error e
    | _, _, _, _, .error e => .error e
  | _ => .error "invalid AIResponse payload"

/-- `_parse_llm_payload`, from the point where `_extract_json_object` has
produced a decoded value (on a string that is the serialized form of a valid
payload, the direct `json.loads` branch of `_extract_json_object` succeeds;
the brace-extraction retry only runs on decode failure).  Defaults are then
applied exactly as in the source: `knowledgeGraphDelta` is inserted when
missing, `responseType` and `cognitiveState` via `setdefault`. -/
def _parse_llm_payload (j : Json) (default_state : CognitiveState) :
    Except String AIResponse :=
  match j with
  | .obj kvs =>
    let kvs := if (kvs.lookup "knowledgeGraphDelta").isNone then
        kvs ++ [("knowledgeGraphDelta", .obj [("nodes", .arr []), ("edges", .arr [])])]
      else kvs
    let kvs := if (kvs.lookup "responseType").isNone then
        kvs ++ [("responseType", .str ResponseType.TEXT.value)]
      else kvs
    let kvs := if (kvs.lookup "cognitiveState").isNone then
        kvs ++ [("cognitiveState", .str default_state.value)]
      else kvs
    aiResponseFromJson (.obj kvs)
  | _ => .error "Invalid LLM payload structure"

/-- Serialization of an `AIResponse` to its JSON wire form (the alias-keyed
shape of §6 of the spec, which is also the shape `_parse_llm_payload`
consumes). -/
def KnowledgeGraphNode.toJson (n : KnowledgeGraphNode) : Json :=
  .obj [("id", .str n.id), ("type", .str n.type), ("label", .str n.label),
        ("mastered", .bool n.mastered)]

def KnowledgeGraphEdge.toJson (e : KnowledgeGraphEdge) : Json :=
  .obj [("id", .str e.id), ("source", .str e.source), ("target", .str e.target),
        ("label", match e.label with | some s => .str s | none => .null)]

def KnowledgeGraphDelta.toJson (d : KnowledgeGraphDelta) : Json :=
  .obj [("nodes", .arr (d.nodes.map KnowledgeGraphNode.toJson)),
        ("edges", .arr (d.edges.map KnowledgeGraphEdge.toJson))]

def AIResponse.toJson (r : AIResponse) : Json :=
  .obj [("responseType", .str r.response_type.value),
        ("content", .str r.content),
        ("cognitiveState", .str r.cognitive_state.value),
        ("knowledgeGraphDelta", r.knowledge_graph_delta.toJson),
        ("metrics", match r.metrics with | some m => .obj m | none => .null)]

/-! ### Fallback response (`session.py`, `_fallback_response`) -/

/-- `_fallback_response`: deterministic schema-valid response keyed by the
cognitive state, transcribed with the exact template text of the source. -/
def _fallback_response (context : CognitiveContext)
    (cognitive_state : CognitiveState) : AIResponse :=
  let mc : ResponseType × String :=
    match cognitive_state with
    | .FOCUSED =>
      (ResponseType.TEXT,
        "I\x27m reinforcing the core idea around " ++ context.topic ++
        ". Here’s a quick recap followed by a suggested next question to deepen your understanding.")
    | .CONFUSED =>
      let topic_safe := (((context.topic.replace "\"" "").replace "\n" " ").take 50)
      (ResponseType.DIAGRAM,
        "graph TD\n    A[\"" ++ topic_safe ++
        "\"] --> B[\"Core Concept\"]\n    A --> C[\"Key Components\"]\n    A --> D[\"Related Ideas\"]\n    B --> E[\"Foundation\"]\n    C --> F[\"Sub-topics\"]\n    D --> G[\"Connections\"]\n")
    | .FRUSTRATED =>
      let topic_safe :=
        ((((context.topic.replace "\"" "").replace "\x27" "").replace "\n" " ").take 30)
      (ResponseType.CODE,
        "// Let\x27s break down " ++ topic_safe ++
        " with a simple example\n// Try changing the values and see what happens!\n\nfunction explore() \x7b\n  // Change this value to experiment\n  const value = 42;\n  \n  console.log(\"Starting with:\", value);\n  console.log(\"Doubled:\", value * 2);\n  console.log(\"Squared:\", value ** 2);\n  \n  return value;\n\x7d\n\nexplore();")
  let node_id := "node_" ++ (context.topic.toLower.replace " " "_")
  let node : KnowledgeGraphNode :=
    { id := node_id, type := "concept", label := context.topic, mastered := false }
  { response_type := mc.1
    content := mc.2
    cognitive_state := cognitive_state
    knowledge_graph_delta := { nodes := [node], edges := [] } }

/-! ### History parsing (`session.py`, `_parse_history`)

Input is modelled at the `json.loads` boundary: `none` is a missing/empty raw
value (`if not raw`), `some none` a raw value on which `json.loads` raises
`JSONDecodeError` (the only exception the source catches), and
`some (some j)` a raw value decoding to `j`.  The result is `Except` because
the loop body can raise: `entry.get` on a non-dict entry is an
`AttributeError`, which the source does **not** catch. -/

/-- Python `str(...)` on a decoded JSON value, as far as the claims need it:
strings pass through; every non-string renders to some non-whitespace text
(numbers and booleans exactly, containers approximated — their renderings
contain brackets either way, so the whitespace-only test below is
unaffected). -/
def pyStr : Json → String
  | .str s => s
  | .num n => toString n
  | .bool true => "True"
  | .bool false => "False"
  | .null => "None"
  | .arr _ => "[...]"
  | .obj _ => "\x7b...\x7d"

/-- The loop body of `_parse_history`: build the kept entries from the last 8
decoded entries, failing on the first non-object entry. -/
def historyEntries : List Json → Except String (List (String × String))
  | [] => .ok []
  | .obj kvs :: rest =>
    let role := pyStr ((kvs.lookup "role").getD (.str "unknown"))
    let content := pyStr ((kvs.lookup "content").getD (.str ""))
    match historyEntries rest with
    | .ok tail => .ok (if pyStrip content ≠ "" then (role, content) :: tail else tail)
    | .error e => .error e
  | _ :: _ => .error "AttributeError: entry has no attribute get"

/-- `_parse_history`. -/
def _parse_history : Option (Option Json) → Except String (List (String × String))
  | none => .ok []
  | some none => .ok []
  | some (some j) =>
    match j with
    | .arr data => historyEntries (pyTakeLast 8 data)
    | _ => .ok []

/-! ### Classroom analytics (`app/api/routes/classroom.py`,
`get_classroom_analytics`, students-needing-help section)

Per student the route runs one aggregate query over that student's
`ConceptMastery` rows (`avg(mastery_level)`, struggling/mastered counts,
summed confusion counters) and one session count; a `Student` bundles the
roster row with the rows those queries see. -/
structure Student where
  student_id : String
  name : String
  records : List ConceptMastery
  session_count : ℕ
  last_active : String
deriving DecidableEq, Repr

/-- The `StudentAnalytics` response model (fields the route populates). -/
structure StudentAnalytics where
  student_id : String
  student_name : String
  total_sessions : ℕ
  avg_mastery : ℚ
  concepts_struggling : ℕ
  concepts_mastered : ℕ
  total_confused_count : ℕ
  total_frustrated_count : ℕ
  last_active : String
  needs_help : Bool
deriving DecidableEq, Repr

/-- `avg(ConceptMastery.mastery_level)` over a student's rows. -/
def avgMastery (rs : List ConceptMastery) : ℚ :=
  (rs.map ConceptMastery.mastery_level).sum / rs.length

/-- `sum(ConceptMastery.confused_count)`. -/
def totalConfused (rs : List ConceptMastery) : ℕ :=
  (rs.map ConceptMastery.confused_count).sum

/-- `sum(ConceptMastery.frustrated_count)`. -/
def totalFrustrated (rs : List ConceptMastery) : ℕ :=
  (rs.map ConceptMastery.frustrated_count).sum

/-- Round-half-to-even to an integer — Python `round` on an exactly
representable value. -/
def roundHalfEven (x : ℚ) : ℤ :=
  if x - ⌊x⌋ = 1/2 then (if ⌊x⌋ % 2 = 0 then ⌊x⌋ else ⌊x⌋ + 1) else round x

/-- Python `round(x, 2)`. -/
def pyRound2 (q : ℚ) : ℚ := (roundHalfEven (100 * q) : ℚ) / 100

/-- The `StudentAnalytics(...)` constructor call in the route. -/
def toStudentAnalytics (s : Student) : StudentAnalytics :=
  { student_id := s.student_id
    student_name := s.name
    total_sessions := s.session_count
    avg_mastery := pyRound2 (avgMastery s.records)
    concepts_struggling := (s.records.filter (fun r => r.mastery_level < 2/5)).length
    concepts_mastered := (s.records.filter (fun r => r.mastery_level ≥ 7/10)).length
    total_confused_count := totalConfused s.records
    total_frustrated_count := totalFrustrated s.records
    last_active := s.last_active
    needs_help := true }

/-- The sort key order of
`students_needing_help.sort(key=lambda s: (s.avg_mastery,
-s.total_confused_count - s.total_frustrated_count))`: ascending stored (2 dp)
average mastery, ties broken by descending summed counters. -/
def helpOrder (a b : StudentAnalytics) : Prop :=
  a.avg_mastery < b.avg_mastery ∨
    (a.avg_mastery = b.avg_mastery ∧
      b.total_confused_count + b.total_frustrated_count ≤
        a.total_confused_count + a.total_frustrated_count)

instance : DecidableRel helpOrder := fun a b => by
  unfold helpOrder; infer_instance

instance : IsTotal StudentAnalytics helpOrder := by
  constructor
  intro a b
  rcases lt_trichotomy a.avg_mastery b.avg_mastery with h | h | h
  · exact Or.inl (Or.inl h)
  · rcases le_total (b.total_confused_count + b.total_frustrated_count)
      (a.total_confused_count + a.total_frustrated_count) with h2 | h2
    · exact Or.inl (Or.inr ⟨h, h2⟩)
    · exact Or.inr (Or.inr ⟨h.symm, h2⟩)
  · exact Or.inr (Or.inl h)

instance : IsTrans StudentAnalytics helpOrder := by
  constructor
  intro a b c hab hbc
  rcases hab with h1 | ⟨e1, l1⟩
  · rcases hbc with h2 | ⟨e2, _⟩
    · exact Or.inl (h1.trans h2)
    · exact Or.inl (e2 ▸ h1)
  · rcases hbc with h2 | ⟨e2, l2⟩
    · exact Or.inl (e1 ▸ h2)
    · exact Or.inr ⟨e1.trans e2, l2.trans l1⟩

/-- The students-needing-help computation of `get_classroom_analytics`: the
roster loop appends an analytics row for each student that has mastery rows
(`mastery_row[0] is not None`) and satisfies the needs-help disjunction; the
final `.sort` is a stable sort by `helpOrder`, embedded as insertion sort. -/
def students_needing_help (students : List Student) : List StudentAnalytics :=
  let l := students.filterMap (fun student =>
    if student.records.isEmpty then none
    else
      let avg := avgMastery student.records
      let confused := totalConfused student.records
      let frustrated := totalFrustrated student.records
      let needs_help := decide (avg < 1/2) || decide (confused > 5) || decide (frustrated > 3)
      if needs_help then some (toStudentAnalytics student) else none)
  List.insertionSort helpOrder l

/-! ## Claims -/

set_option maxHeartbeats 1600000 in
/-- C1: `fuse_cognitive_signals` returns the state given by the canonical
rubric — FRUSTRATED override on a frustrated vocal state, otherwise the
summed score (+3 rephrase>1, +2 backspace>10, +3 more backspace>20,
+3 HESITANT, +4 STRESSED, +3 FEAR/SAD/ANGRY, +1 SURPRISE) thresholded at
8 (FRUSTRATED) and 4 (CONFUSED), else FOCUSED; the spec's Example B input
scores 11 and yields FRUSTRATED. -/
theorem fuse_matches_canonical_rubric :
    (∀ (tf : TextFriction) (vs : Option VocalState) (fe : Option FacialExpression),
      fuse_cognitive_signals tf vs fe = rubricFuse tf vs fe) ∧
    rubricScore ⟨2, 12⟩ (some VocalState.HESITANT) (some FacialExpression.SAD) = 11 ∧
    fuse_cognitive_signals ⟨2, 12⟩ (some VocalState.HESITANT) (some FacialExpression.SAD) =
      CognitiveState.FRUSTRATED := by
  refine ⟨?_, by decide, by decide⟩
  intro tf vs fe
  obtain ⟨rc, bc⟩ := tf
  rcases vs with _ | v
  all_goals try cases v
  all_goals rcases fe with _ | f
  all_goals try cases f
  all_goals simp [fuse_cognitive_signals, rubricFuse, rubricScore]
  all_goals try split_ifs
  all_goals first | rfl | omega

/-- C2: one mastery-tracking interaction event performs exactly the
specified transition — creation with attempts 1 and the state-keyed initial
mastery and counters, update with attempts +1 and the clamped mastery
delta plus the matching counter increment. -/
theorem track_concept_interaction_transitions (m : ConceptMastery) :
    (track_concept_interaction none CognitiveState.FOCUSED =
        { mastery_level := 1/2, attempts := 1, confused_count := 0, frustrated_count := 0 } ∧
      track_concept_interaction none CognitiveState.CONFUSED =
        { mastery_level := 1/5, attempts := 1, confused_count := 1, frustrated_count := 0 } ∧
      track_concept_interaction none CognitiveState.FRUSTRATED =
        { mastery_level := 1/10, attempts := 1, confused_count := 0, frustrated_count := 1 }) ∧
    (track_concept_interaction (some m) CognitiveState.FOCUSED =
        { mastery_level := min 1 (m.mastery_level + 1/10), attempts := m.attempts + 1,
          confused_count := m.confused_count, frustrated_count := m.frustrated_count } ∧
      track_concept_interaction (some m) CognitiveState.CONFUSED =
        { mastery_level := max 0 (m.mastery_level - 1/20), attempts := m.attempts + 1,
          confused_count := m.confused_count + 1, frustrated_count := m.frustrated_count } ∧
      track_concept_interaction (some m) CognitiveState.FRUSTRATED =
        { mastery_level := max 0 (m.mastery_level - 1/10), attempts := m.attempts + 1,
          confused_count := m.confused_count, frustrated_count := m.frustrated_count + 1 }) :=
  ⟨⟨rfl, rfl, rfl⟩, rfl, rfl, rfl⟩

/-- C5: for every context and cognitive state the fallback response emits a
knowledge-graph delta with exactly one node — id `"node_"` plus the
lowercased, space-to-underscore topic, type `"concept"`, label the topic,
mastered false — and zero edges, and the response is schema-valid. -/
theorem fallback_response_single_concept_node :
    ∀ (context : CognitiveContext) (cs : CognitiveState),
      (_fallback_response context cs).knowledge_graph_delta =
        { nodes := [{ id := "node_" ++ (context.topic.toLower.replace " " "_"),
                      type := "concept", label := context.topic, mastered := false }],
          edges := [] } ∧
      validAIResponse (_fallback_response context cs) = true := by
  intro context cs
  cases cs <;> exact ⟨rfl, rfl⟩

/-- C8: the prompt builder overrides to DIAGRAM with the alternate guidance
exactly when the state is FOCUSED and the last response was TEXT; every
other combination gets the fixed table entry FOCUSED→TEXT,
CONFUSED→DIAGRAM, FRUSTRATED→CODE with its fixed guidance. -/
theorem preferred_modality_table :
    ∀ (context : CognitiveContext),
      _preferred_modality context =
        if context.cognitive_state = CognitiveState.FOCUSED ∧
            context.last_response_type = some ResponseType.TEXT then
          (ResponseType.DIAGRAM,
            "Learner remains focused after a textual response. Offer a quick visual (Mermaid diagram) to deepen understanding.")
        else
          match context.cognitive_state with
          | CognitiveState.FOCUSED =>
            (ResponseType.TEXT,
              "Deliver a concise textual explanation that builds intuition, then reinforce with a short checklist of key points.")
          | CognitiveState.CONFUSED =>
            (ResponseType.DIAGRAM,
              "Use a Mermaid diagram to visualise relationships. Start with a one-sentence anchor explanation, then provide the diagram.")
          | CognitiveState.FRUSTRATED =>
            (ResponseType.CODE,
              "Present a small, runnable code sample (JavaScript or Python) with inline comments. Follow with a quick experiment suggestion.") := by
  intro context
  obtain ⟨_, _, _, cs, _, _, _, lrt, _, _, _⟩ := context
  cases cs <;> (rcases lrt with _ | rt <;> [skip; cases rt]) <;> rfl

/-- Bounds of one tracking step: from an in-range (or absent) record, the
updated mastery level stays in [0, 1]. -/
lemma track_mastery_bounds (st : Option ConceptMastery) (e : CognitiveState)
    (h : ∀ m, st = some m → 0 ≤ m.mastery_level ∧ m.mastery_level ≤ 1) :
    0 ≤ (track_concept_interaction st e).mastery_level ∧
      (track_concept_interaction st e).mastery_level ≤ 1 := by
  rcases st with _ | m
  · cases e <;> constructor <;> norm_num [track_concept_interaction]
  · obtain ⟨h0, h1⟩ := h m rfl
    cases e <;> simp only [track_concept_interaction] <;> constructor
    · exact le_min (by norm_num) (by linarith)
    · exact min_le_left _ _
    · exact le_max_left _ _
    · exact max_le (by norm_num) (by linarith)
    · exact le_max_left _ _
    · exact max_le (by norm_num) (by linarith)

/-- One update step increments `attempts`. -/
lemma track_attempts_succ (m : ConceptMastery) (e : CognitiveState) :
    (track_concept_interaction (some m) e).attempts = m.attempts + 1 := by
  cases e <;> rfl

/-- Every state reached by a run from an in-range (or absent) start is in
range. -/
lemma runEvents_mastery_bounds (events : List CognitiveState)
    (st : Option ConceptMastery)
    (h : ∀ m, st = some m → 0 ≤ m.mastery_level ∧ m.mastery_level ≤ 1) :
    ∀ m ∈ runEvents st events, 0 ≤ m.mastery_level ∧ m.mastery_level ≤ 1 := by
  induction events generalizing st with
  | nil => intro m hm; simp [runEvents] at hm
  | cons e es ih =>
    intro m hm
    rcases List.mem_cons.mp hm with rfl | hm
    · exact track_mastery_bounds st e h
    · exact ih (some (track_concept_interaction st e))
        (fun m' hm' => by
          cases hm'
          exact track_mastery_bounds st e h) m hm

/-- Along a run, consecutive states have non-decreasing `attempts`. -/
lemma runEvents_attempts_chain (events : List CognitiveState)
    (st : Option ConceptMastery) :
    List.Chain' (fun a b => a.attempts ≤ b.attempts) (runEvents st events) := by
  induction events generalizing st with
  | nil => simp [runEvents]
  | cons e es ih =>
    rw [runEvents]
    refine List.chain'_cons'.mpr ⟨?_, ih (some (track_concept_interaction st e))⟩
    intro b hb
    cases es with
    | nil => simp [runEvents] at hb
    | cons e' es' =>
      simp only [runEvents, List.head?_cons, Option.mem_def, Option.some.injEq] at hb
      subst hb
      rw [track_attempts_succ]
      exact Nat.le_succ _

/-- C3: over any sequence of interaction events on one (student, concept)
key, the mastery level is within [0, 1] after every step and `attempts`
never decreases from one state to the next. -/
theorem mastery_clamped_and_attempts_monotone (events : List CognitiveState) :
    (∀ m ∈ runEvents none events, 0 ≤ m.mastery_level ∧ m.mastery_level ≤ 1) ∧
    List.Chain' (fun a b => a.attempts ≤ b.attempts) (runEvents none events) :=
  ⟨runEvents_mastery_bounds events none (fun _ h => by cases h),
   runEvents_attempts_chain events none⟩

/-- C7 counterexample: with no weak, struggling or strong concepts (and high
average mastery), the output is the single tier message — the claimed default
encouragement message is not appended, because the tier message has already
made the list nonempty. -/
theorem generate_recommendations_no_default_appended :
    _generate_recommendations [] [] [] (9/10) =
      ["ðŸ† Excellent progress! You\x27re ready for advanced topics."] := by
  norm_num [_generate_recommendations]

/-- C7 (amended): the recommendations list is exactly one tier message chosen
by the average-mastery thresholds, then the optional weak (up to 3 names),
struggling (up to 2) and strong (up to 2) messages in that order; the default
encouragement message is never appended (its guard, an empty list, cannot
hold once the tier message is in). -/
theorem generate_recommendations_structure :
    ∀ (weak struggling strong : List GapConcept) (avg_mastery : ℚ),
      _generate_recommendations weak struggling strong avg_mastery =
        [if avg_mastery < 3/10 then
          "âš ï¸ You\x27re in early stages. Focus on building fundamentals before moving forward."
        else if avg_mastery < 1/2 then
          "ðŸ“š You\x27re making progress! Review weak areas before tackling new concepts."
        else if avg_mastery < 7/10 then
          "ðŸŽ¯ Good momentum! A few more practice sessions will solidify your knowledge."
        else
          "ðŸ† Excellent progress! You\x27re ready for advanced topics."] ++
        (if weak ≠ [] then
          ["ðŸ”´ Priority review needed: " ++
            String.intercalate ", " ((weak.take 3).map GapConcept.name)]
        else []) ++
        (if struggling ≠ [] then
          ["âš ï¸ You\x27ve been confused about: " ++
            String.intercalate ", " ((struggling.take 2).map GapConcept.name) ++
            ". Try a different approach or ask for examples."]
        else []) ++
        (if strong ≠ [] then
          ["âœ… You\x27ve mastered: " ++
            String.intercalate ", " ((strong.take 2).map GapConcept.name) ++
            "! Build on these strengths."]
        else []) := by
  intro weak struggling strong avg_mastery
  by_cases hw : weak = [] <;> by_cases hs : struggling = [] <;> by_cases hg : strong = [] <;>
    simp [_generate_recommendations, hw, hs, hg]

/-- The history entries `_parse_history` keeps, as the spec words it: of the
last 8 decoded entries, the object entries whose rendered content is not
whitespace-only, in original order. -/
def histSpec (data : List Json) : List (String × String) :=
  (pyTakeLast 8 data).filterMap (fun e =>
    match e with
    | .obj kvs =>
      let role := pyStr ((kvs.lookup "role").getD (.str "unknown"))
      let content := pyStr ((kvs.lookup "content").getD (.str ""))
      if pyStrip content ≠ "" then some (role, content) else none
    | _ => none)

/-- C6 counterexample: on the input string `"[1]"` — a JSON array whose entry
is not an object — `_parse_history` raises (`entry.get` is an
`AttributeError`, which the source's `except json.JSONDecodeError` does not
catch) instead of returning. -/
theorem parse_history_error_on_nonobject_entry :
    _parse_history (some (some (Json.arr [Json.num 1]))) =
      .error "AttributeError: entry has no attribute get" := by
  rfl

lemma historyEntries_all_obj (entries : List Json)
    (h : ∀ e ∈ entries, ∃ kvs, e = Json.obj kvs) :
    historyEntries entries = .ok (entries.filterMap (fun e =>
      match e with
      | .obj kvs =>
        let role := pyStr ((kvs.lookup "role").getD (.str "unknown"))
        let content := pyStr ((kvs.lookup "content").getD (.str ""))
        if pyStrip content ≠ "" then some (role, content) else none
      | _ => none)) := by
  induction entries with
  | nil => rfl
  | cons e rest ih =>
    obtain ⟨kvs, rfl⟩ := h e (List.mem_cons_self e rest)
    have hr := ih (fun x hx => h x (List.mem_cons_of_mem _ hx))
    simp only [historyEntries, hr, List.filterMap_cons]
    split_ifs <;> simp

/-- C6 (amended): `_parse_history` yields an empty history on a missing value
or a JSON decode failure and, when the decoded value is an array whose last 8
entries are all objects, succeeds with at most the last 8 entries in original
order, dropping entries whose content is empty or whitespace-only; a
non-object entry among the last 8, however, raises an uncaught
`AttributeError` (see the counterexample). -/
theorem parse_history_window (data : List Json)
    (h : ∀ e ∈ pyTakeLast 8 data, ∃ kvs, e = Json.obj kvs) :
    _parse_history (some (some (Json.arr data))) = .ok (histSpec data) ∧
    (histSpec data).length ≤ 8 ∧
    _parse_history none = .ok [] ∧
    _parse_history (some none) = .ok [] := by
  refine ⟨?_, ?_, rfl, rfl⟩
  · simpa [_parse_history, histSpec] using historyEntries_all_obj (pyTakeLast 8 data) h
  · calc (histSpec data).length ≤ (pyTakeLast 8 data).length :=
          List.length_filterMap_le _ _
      _ ≤ 8 := by simp [pyTakeLast]; omega

/-- C6 witness: a concrete two-entry history where the second entry's content
is whitespace-only. -/
theorem parse_history_window_witness :
    (∀ e ∈ pyTakeLast 8 [Json.obj [("role", Json.str "user"), ("content", Json.str "hi")],
        Json.obj [("content", Json.str "  ")]], ∃ kvs, e = Json.obj kvs) ∧
    _parse_history (some (some (Json.arr
      [Json.obj [("role", Json.str "user"), ("content", Json.str "hi")],
       Json.obj [("content", Json.str "  ")]]))) = .ok [("user", "hi")] := by
  have h : ∀ e ∈ pyTakeLast 8 [Json.obj [("role", Json.str "user"), ("content", Json.str "hi")],
      Json.obj [("content", Json.str "  ")]], ∃ kvs, e = Json.obj kvs := by
    intro e he
    simp [pyTakeLast] at he
    rcases he with rfl | rfl
    · exact ⟨_, rfl⟩
    · exact ⟨_, rfl⟩
  exact ⟨h, ((parse_history_window _ h).1).trans (congrArg Except.ok (by decide))⟩

lemma responseType_fromJson_value (rt : ResponseType) :
    responseTypeFromJson (Json.str rt.value) = .ok rt := by
  cases rt <;> rfl

lemma cognitiveState_fromJson_value (cs : CognitiveState) :
    cognitiveStateFromJson (Json.str cs.value) = .ok cs := by
  cases cs <;> rfl

lemma nodeFromJson_toJson (n : KnowledgeGraphNode) (h : validNodeType n.type = true) :
    nodeFromJson n.toJson = .ok n := by
  obtain ⟨i, t, lb, m⟩ := n
  have hred : nodeFromJson (KnowledgeGraphNode.toJson ⟨i, t, lb, m⟩) =
      if validNodeType t then .ok ⟨i, t, lb, m⟩
      else .error "unexpected value; permitted: concept, mastered, note" := rfl
  rw [hred, if_pos h]

lemma edgeFromJson_toJson (e : KnowledgeGraphEdge) :
    edgeFromJson e.toJson = .ok e := by
  obtain ⟨i, s, t, lbl⟩ := e
  cases lbl <;> rfl

lemma nodesFromJson_map_toJson (ns : List KnowledgeGraphNode)
    (h : ns.all (fun n => validNodeType n.type) = true) :
    nodesFromJson (ns.map KnowledgeGraphNode.toJson) = .ok ns := by
  induction ns with
  | nil => rfl
  | cons n rest ih =>
    simp only [List.all_cons, Bool.and_eq_true] at h
    simp [nodesFromJson, nodeFromJson_toJson n h.1, ih h.2]

lemma edgesFromJson_map_toJson (es : List KnowledgeGraphEdge) :
    edgesFromJson (es.map KnowledgeGraphEdge.toJson) = .ok es := by
  induction es with
  | nil => rfl
  | cons e rest ih => simp [edgesFromJson, edgeFromJson_toJson e, ih]

lemma deltaFromJson_toJson (d : KnowledgeGraphDelta)
    (h : d.nodes.all (fun n => validNodeType n.type) = true) :
    deltaFromJson d.toJson = .ok d := by
  obtain ⟨ns, es⟩ := d
  have hred : deltaFromJson (KnowledgeGraphDelta.toJson ⟨ns, es⟩) =
      (match nodesFromJson (ns.map KnowledgeGraphNode.toJson),
             edgesFromJson (es.map KnowledgeGraphEdge.toJson) with
       | .ok a, .ok b => .ok ⟨a, b⟩
       | .error e, _ => .error e
       | _, .error e => .error e) := rfl
  rw [hred, nodesFromJson_map_toJson ns h, edgesFromJson_map_toJson es]

/-- C4: for every schema-valid `AIResponse` and any fallback cognitive state,
`_parse_llm_payload` applied to its serialized JSON form succeeds and
reproduces the response (round-trip identity); none of the
missing-key defaults fire. -/
theorem parse_llm_payload_roundtrip (r : AIResponse) (d : CognitiveState)
    (h : validAIResponse r = true) :
    _parse_llm_payload r.toJson d = .ok r := by
  obtain ⟨rt, ct, cs, kg, mt⟩ := r
  have hkg : deltaFromJson kg.toJson = .ok kg :=
    deltaFromJson_toJson kg (by simpa [validAIResponse] using h)
  rcases mt with _ | m
  · have hred : _parse_llm_payload (AIResponse.mk rt ct cs kg none).toJson d =
        (match responseTypeFromJson (Json.str rt.value),
               (Except.ok ct : Except String String),
               cognitiveStateFromJson (Json.str cs.value),
               deltaFromJson kg.toJson,
               (Except.ok none : Except String (Option (List (String × Json)))) with
         | .ok a, .ok b, .ok c, .ok d', .ok e => .ok (AIResponse.mk a b c d' e)
         | .error e, _, _, _, _ => .error e
         | _, .error e, _, _, _ => .error e
         | _, _, .error e, _, _ => .error e
         | _, _, _, .error e, _ => .error e
         | _, _, _, _, .error e => .error e) := rfl
    rw [hred, responseType_fromJson_value rt, cognitiveState_fromJson_value cs, hkg]
  · have hred : _parse_llm_payload (AIResponse.mk rt ct cs kg (some m)).toJson d =
        (match responseTypeFromJson (Json.str rt.value),
               (Except.ok ct : Except String String),
               cognitiveStateFromJson (Json.str cs.value),
               deltaFromJson kg.toJson,
               (Except.ok (some m) : Except String (Option (List (String × Json)))) with
         | .ok a, .ok b, .ok c, .ok d', .ok e => .ok (AIResponse.mk a b c d' e)
         | .error e, _, _, _, _ => .error e
         | _, .error e, _, _, _ => .error e
         | _, _, .error e, _, _ => .error e
         | _, _, _, .error e, _ => .error e
         | _, _, _, _, .error e => .error e) := rfl
    rw [hred, responseType_fromJson_value rt, cognitiveState_fromJson_value cs, hkg]

/-- C4 witness: a concrete valid response with one node and one edge
round-trips under the TEXT/FOCUSED defaults. -/
theorem parse_llm_payload_roundtrip_witness :
    validAIResponse
      (AIResponse.mk ResponseType.DIAGRAM "a diagram" CognitiveState.CONFUSED
        (KnowledgeGraphDelta.mk [KnowledgeGraphNode.mk "node_sets" "concept" "Sets" false]
          [KnowledgeGraphEdge.mk "edge_1" "node_root" "node_sets" (some "builds_on")]) none)
      = true ∧
    _parse_llm_payload
      (AIResponse.mk ResponseType.DIAGRAM "a diagram" CognitiveState.CONFUSED
        (KnowledgeGraphDelta.mk [KnowledgeGraphNode.mk "node_sets" "concept" "Sets" false]
          [KnowledgeGraphEdge.mk "edge_1" "node_root" "node_sets" (some "builds_on")]) none).toJson
      CognitiveState.FOCUSED =
      .ok (AIResponse.mk ResponseType.DIAGRAM "a diagram" CognitiveState.CONFUSED
        (KnowledgeGraphDelta.mk [KnowledgeGraphNode.mk "node_sets" "concept" "Sets" false]
          [KnowledgeGraphEdge.mk "edge_1" "node_root" "node_sets" (some "builds_on")]) none) :=
  ⟨rfl, parse_llm_payload_roundtrip _ CognitiveState.FOCUSED rfl⟩

/-- A filter-map with a boolean guard is filter-then-map. -/
lemma filterMap_guard {α β : Type} (p : α → Bool) (f : α → β) :
    ∀ l : List α,
      (l.filterMap fun a => if p a then some (f a) else none) = (l.filter p).map f := by
  intro l
  induction l with
  | nil => rfl
  | cons a t ih => by_cases h : p a <;> simp [List.filterMap_cons, List.filter_cons, h, ih]

/-- The roster loop of the needs-help computation, rewritten as
filter-then-map. -/
lemma needing_help_filterMap_eq (students : List Student) :
    students.filterMap (fun student =>
      if student.records.isEmpty then none
      else
        let avg := avgMastery student.records
        let confused := totalConfused student.records
        let frustrated := totalFrustrated student.records
        let needs_help :=
          decide (avg < 1/2) || decide (confused > 5) || decide (frustrated > 3)
        if needs_help then some (toStudentAnalytics student) else none) =
    (students.filter (fun s => !s.records.isEmpty &&
        (decide (avgMastery s.records < 1/2) || decide (totalConfused s.records > 5) ||
         decide (totalFrustrated s.records > 3)))).map toStudentAnalytics := by
  have hfun : (fun student =>
      if student.records.isEmpty then none
      else
        let avg := avgMastery student.records
        let confused := totalConfused student.records
        let frustrated := totalFrustrated student.records
        let needs_help :=
          decide (avg < 1/2) || decide (confused > 5) || decide (frustrated > 3)
        if needs_help then some (toStudentAnalytics student) else none) =
      (fun s : Student => if (!s.records.isEmpty &&
          (decide (avgMastery s.records < 1/2) || decide (totalConfused s.records > 5) ||
           decide (totalFrustrated s.records > 3))) then some (toStudentAnalytics s)
        else none) := by
    funext s
    by_cases h1 : s.records.isEmpty
    · simp [h1]
    · by_cases h2 : (decide (avgMastery s.records < 1/2) ||
        decide (totalConfused s.records > 5) ||
        decide (totalFrustrated s.records > 3)) = true
      · simp [h1, h2]
      · simp [h1, h2]
  rw [hfun, filterMap_guard]

/-- C9: the classroom needs-help list consists exactly of the students with
at least one mastery record satisfying avgMastery < 0.5 or totalConfused > 5
or totalFrustrated > 3, sorted ascending by stored average mastery with ties
broken by descending summed confusion counters; on a roster with average
masteries 0.8, 0.3 and 0.55 and no count flags, only the 0.3 student is
listed. -/
theorem students_needing_help_spec :
    ∀ (students : List Student),
      (students_needing_help students).Perm
        ((students.filter (fun s => !s.records.isEmpty &&
            (decide (avgMastery s.records < 1/2) || decide (totalConfused s.records > 5) ||
             decide (totalFrustrated s.records > 3)))).map toStudentAnalytics) ∧
      List.Sorted helpOrder (students_needing_help students) ∧
      students_needing_help
        [⟨"s1", "Ada", [⟨4/5, 1, 0, 0⟩], 1, "t1"⟩,
         ⟨"s2", "Ben", [⟨3/10, 1, 0, 0⟩], 1, "t2"⟩,
         ⟨"s3", "Cam", [⟨11/20, 1, 0, 0⟩], 1, "t3"⟩] =
        [⟨"s2", "Ben", 1, 3/10, 1, 0, 0, 0, "t2", true⟩] := by
  intro students
  refine ⟨?_, ?_, ?_⟩
  · simp only [students_needing_help]
    rw [needing_help_filterMap_eq]
    exact List.perm_insertionSort helpOrder _
  · simp only [students_needing_help]
    exact List.sorted_insertionSort helpOrder _
  · norm_num [students_needing_help, toStudentAnalytics, avgMastery, totalConfused,
      totalFrustrated, pyRound2, roundHalfEven, List.insertionSort, List.orderedInsert,
      List.filterMap_cons, Int.floor_intCast, round_intCast]

lemma pyTakeLast_six_idem {α : Type} (l : List α) :
    pyTakeLast 6 (pyTakeLast 6 l) = pyTakeLast 6 l := by
  simp only [pyTakeLast, List.length_drop]
  have h : l.length - (l.length - 6) - 6 = 0 := by omega
  rw [h, List.drop_zero]

lemma pyTakeLast_six_ne_nil {α : Type} (l : List α) (h : l ≠ []) :
    pyTakeLast 6 l ≠ [] := by
  intro hc
  have hlen := congrArg List.length hc
  simp only [pyTakeLast, List.length_drop, List.length_nil] at hlen
  have : l.length = 0 := by omega
  exact h (List.length_eq_zero.mp this)

/-- `_render_history` only sees the last 6 history entries. -/
lemma render_history_takeLast (h : List (String × String)) :
    _render_history (pyTakeLast 6 h) = _render_history h := by
  by_cases he : h = []
  · subst he; rfl
  · rw [_render_history, _render_history, if_neg he, if_neg (pyTakeLast_six_ne_nil h he),
      pyTakeLast_six_idem]

lemma enumFrom_map_eq_mapIdx {β : Type} (g : ℕ → (String × String) → β) :
    ∀ (l : List (String × String)) (n : ℕ),
      (List.enumFrom n l).map (fun p => g p.1 p.2) =
        l.mapIdx (fun i p => g (n + i) p) := by
  intro l
  induction l with
  | nil => intro n; rfl
  | cons a t ih =>
    intro n
    rw [List.enumFrom, List.map_cons, List.mapIdx_cons, ih (n + 1)]
    have harg : (fun i p => g (n + 1 + i) p) = (fun i (p : String × String) => g (n + (i + 1)) p) := by
      funext i p
      congr 1
      omega
    rw [harg]
    simp

/-- C10: the prompt built by `build_prompt` depends on the conversation
history only through its last 6 entries (older entries never appear), and the
rendered history section lists those entries most-recent-first, numbered from
1, each content whitespace-normalized. -/
theorem build_prompt_history_window :
    ∀ (context : CognitiveContext),
      build_prompt context =
        build_prompt { context with
          conversation_history := pyTakeLast 6 context.conversation_history } ∧
      (context.conversation_history ≠ [] →
        _render_history context.conversation_history =
          String.intercalate "\n"
            (((pyTakeLast 6 context.conversation_history).reverse).mapIdx
              (fun i p => "- " ++ toString (i + 1) ++ ". " ++ p.1 ++ ": " ++
                normalizeWs p.2))) := by
  intro context
  constructor
  · obtain ⟨sid, top, qt, cs, hist, lo, kg, lrt, tfs, vs, fe⟩ := context
    have hpm : _preferred_modality
        ⟨sid, top, qt, cs, pyTakeLast 6 hist, lo, kg, lrt, tfs, vs, fe⟩ =
        _preferred_modality ⟨sid, top, qt, cs, hist, lo, kg, lrt, tfs, vs, fe⟩ := rfl
    simp only [build_prompt, render_history_takeLast, hpm]
  · intro hne
    rw [_render_history, if_neg hne]
    dsimp only
    congr 1
    rw [enumFrom_map_eq_mapIdx (fun k p => "- " ++ toString k ++ ". " ++ p.1 ++ ": " ++
      normalizeWs p.2) ((pyTakeLast 6 context.conversation_history).reverse) 1]
    simp [Nat.add_comm]

/-- C10 witness: an 8-entry history — the prompt renders only the last 6. -/
theorem build_prompt_history_window_witness :
    ([("user", "a"), ("assistant", "b"), ("user", "c"), ("assistant", "d"),
      ("user", "e"), ("assistant", "f"), ("user", "g"), ("assistant", "h")] :
        List (String × String)) ≠ [] ∧
    _render_history
      [("user", "a"), ("assistant", "b"), ("user", "c"), ("assistant", "d"),
       ("user", "e"), ("assistant", "f"), ("user", "g"), ("assistant", "h")] =
      String.intercalate "\n"
        (((pyTakeLast 6
          [("user", "a"), ("assistant", "b"), ("user", "c"), ("assistant", "d"),
           ("user", "e"), ("assistant", "f"), ("user", "g"), ("assistant", "h")]).reverse).mapIdx
          (fun i p => "- " ++ toString (i + 1) ++ ". " ++ p.1 ++ ": " ++ normalizeWs p.2)) := by
  have hne : ([("user", "a"), ("assistant", "b"), ("user", "c"), ("assistant", "d"),
      ("user", "e"), ("assistant", "f"), ("user", "g"), ("assistant", "h")] :
        List (String × String)) ≠ [] := by simp
  exact ⟨hne,
    (build_prompt_history_window
      ⟨"s", "Topic", "q", CognitiveState.FOCUSED,
        [("user", "a"), ("assistant", "b"), ("user", "c"), ("assistant", "d"),
         ("user", "e"), ("assistant", "f"), ("user", "g"), ("assistant", "h")],
        [], [], none, "", none, none⟩).2 hne⟩

end BrainCell
